import Mathlib

/-!
Verification of `plaidapp/views.py` from the plaid_rest_celery repository.

The request handler `ObtainAccessTokenView.post` is embedded as a pure
function from the request, the behaviour of the environment (provider
exchange outcome, behaviour of each Celery `apply_async` call, primary key
assigned by the database) and the current `PlaidItem` table to the handler
result, the ordered trace of observable events and the table afterwards.
The two list views are embedded as filters over their tables.
-/

namespace PlaidApp

/-- Fields returned by the provider on a successful public-token exchange
(`client.Item.public_token.exchange` in `views.py`): the dictionary keys
`access_token`, `item_id` and `request_id` that the handler reads. -/
structure ExchangeSuccess where
  access_token : String
  item_id : String
  request_id : String
deriving DecidableEq, Repr

/-- Typed provider error (`plaid.errors.PlaidError`) raised by the exchange
call, exposing the attributes `type`, `code` and `request_id` read in the
`except PlaidError` block of `views.py`. -/
structure ProviderFailure where
  etype : String
  code : String
  request_id : String
deriving DecidableEq, Repr

/-- Outcome of the provider exchange call. -/
inductive ExchangeResult where
  | ok (r : ExchangeSuccess)
  | err (e : ProviderFailure)
deriving DecidableEq, Repr

/-- Row of the `PlaidItem` table (`plaidapp.models.PlaidItem` as used in
`views.py`): access token, provider item id, owning user, and the
`identifier` the row carries after `save()`. Users are represented by
their numeric id. -/
structure PlaidItem where
  access_token : String
  item_id : String
  user : Nat
  identifier : Nat
deriving DecidableEq, Repr

/-- Names of the three Celery jobs imported from `plaidapp.tasks`. -/
inductive JobName where
  | fetch_item_metadata
  | fetch_accounts_data
  | fetch_transactions
deriving DecidableEq, Repr

/-- Value in a JSON response body: a string, a boolean, or the form error
dictionary. -/
inductive JVal where
  | str (s : String)
  | bool (b : Bool)
  | errs (e : List (String × String))
deriving DecidableEq, Repr

/-- HTTP response produced by the handler: status code and JSON body as an
ordered list of key/value pairs. -/
structure Response where
  status : Nat
  body : List (String × JVal)
deriving DecidableEq, Repr

/-- Observable events performed by the handler, in program order:
the provider exchange call, structured log calls (event name plus keyword
fields, as strings), `logger.exception`, the `PlaidItem.save()` call, and a
job submission (`apply_async`) with its positional `args` and optional
`countdown`. -/
inductive Event where
  | providerExchange (public_token : String)
  | logInfo (event : String) (fields : List (String × String))
  | logException (msg : String)
  | saveItem (item : PlaidItem)
  | submit (job : JobName) (args : List Nat) (countdown : Option Nat)
deriving DecidableEq, Repr

/-- Behaviour of one `apply_async` call: it succeeds, it raises the
`OperationalError` named in the `except` clause of `views.py`, or it raises
some other exception. -/
inductive DispatchOutcome where
  | ok
  | operationalError
  | otherError
deriving DecidableEq, Repr

/-- Inputs of `ObtainAccessTokenView.post`: the authenticated user's id and
the outcome of `PublicTokenForm` validation, namely `form.is_valid()`,
`form.cleaned_data["public_token"]` and `form.errors`. The form itself
lives in `plaidapp/forms.py`; the handler only branches on these values,
so they are taken as inputs. -/
structure Request where
  user_id : Nat
  form_valid : Bool
  public_token : String
  form_errors : List (String × String)
deriving DecidableEq, Repr

/-- Behaviour of the environment during one request: the provider's answer
to the exchange call, the behaviour of the three `apply_async` calls in
program order, and the identifier the database assigns on `save()`. -/
structure Env where
  exchange : ExchangeResult
  d1 : DispatchOutcome
  d2 : DispatchOutcome
  d3 : DispatchOutcome
  next_identifier : Nat
deriving DecidableEq, Repr

/-- Result of one request: the handler result (`Except.error ()` models an
exception escaping the handler, hence no 2xx/4xx response built by this
code), the ordered event trace, and the `PlaidItem` table afterwards. -/
structure Outcome where
  result : Except Unit Response
  trace : List Event
  items : List PlaidItem
deriving Repr

/-- How the `try` block around the three `apply_async` calls ends. -/
inductive TryResult where
  | completed
  | caughtOperational
  | unhandled
deriving DecidableEq, Repr

/-- Events of the `try` block at lines 67 to 89 of `plaidapp/views.py`:
`fetch_item_metadata.apply_async`, `fetch_accounts_data.apply_async` and
`fetch_transactions.apply_async` run in order; an `OperationalError` from
any of them jumps to the `except` clause, which calls
`celery_logger.exception`; any other exception propagates. A call that
raises emits no `submit` event, since the job never reached the queue. -/
def runDispatch (uid ident : Nat) (d1 d2 d3 : DispatchOutcome) :
    List Event × TryResult :=
  match d1 with
  | .operationalError =>
    ([Event.logException "Sending task raised %r"], .caughtOperational)
  | .otherError => ([], .unhandled)
  | .ok =>
    let e1 := Event.submit .fetch_item_metadata [uid, ident] none
    match d2 with
    | .operationalError =>
      ([e1, Event.logException "Sending task raised %r"], .caughtOperational)
    | .otherError => ([e1], .unhandled)
    | .ok =>
      let e2 := Event.submit .fetch_accounts_data [uid, ident] none
      match d3 with
      | .operationalError =>
        ([e1, e2, Event.logException "Sending task raised %r"], .caughtOperational)
      | .otherError => ([e1, e2], .unhandled)
      | .ok =>
        ([e1, e2, Event.submit .fetch_transactions [uid, ident] (some 20)],
         .completed)

/-- Embedding of `ObtainAccessTokenView.post` (`plaidapp/views.py`, lines
28 to 104). If the form is invalid, log and answer
`400 Validation failed` with the form errors; otherwise call the exchange;
on `PlaidError` log the failure (with the public token and the error
attributes) and answer `400` with the error code; on success log, build and
save the `PlaidItem`, run the dispatch block, then log item creation and
answer `201` - unless a non-operational exception escaped the dispatch
block, in which case no response is built here and the saved row stays. -/
def post (req : Request) (env : Env) (db : List PlaidItem) : Outcome :=
  if req.form_valid then
    match env.exchange with
    | .err e =>
      { result := Except.ok { status := 400, body := [("message", JVal.str e.code)] }
        trace :=
          [Event.providerExchange req.public_token,
           Event.logInfo "public token exchange fail"
             [("public_token", req.public_token),
              ("token_exchange", "fail"),
              ("error_type", e.etype),
              ("error_code", e.code),
              ("plaid_request_id", e.request_id)]]
        items := db }
    | .ok r =>
      let item : PlaidItem :=
        { access_token := r.access_token, item_id := r.item_id,
          user := req.user_id, identifier := env.next_identifier }
      let pre : List Event :=
        [Event.providerExchange req.public_token,
         Event.logInfo "public-token exchange success"
           [("plaid_request_id", r.request_id),
            ("token_exchange", "success")],
         Event.saveItem item]
      let disp := runDispatch req.user_id env.next_identifier env.d1 env.d2 env.d3
      match disp.2 with
      | .unhandled =>
        { result := Except.error ()
          trace := pre ++ disp.1
          items := db ++ [item] }
      | _ =>
        { result := Except.ok
            { status := 201
              body := [("message", JVal.str "Account added successfully."),
                       ("success", JVal.bool true)] }
          trace := pre ++ disp.1 ++
            [Event.logInfo "new item create success"
              [("plaid_request_id", r.request_id),
               ("item_create", "success")]]
          items := db ++ [item] }
  else
    { result := Except.ok
        { status := 400
          body := [("message", JVal.str "Validation failed."),
                   ("errors", JVal.errs req.form_errors)] }
      trace := [Event.logInfo "invalid public-token provided" []]
      items := db }

/-- Row of the `Account` table: owning user id, other columns kept as an
opaque payload (they do not matter to the scoping claims). -/
structure Account where
  user : Nat
  payload : String
deriving DecidableEq, Repr

/-- Row of the `Transaction` table: owning user id plus opaque payload. -/
structure Transaction where
  user : Nat
  payload : String
deriving DecidableEq, Repr

/-- Embedding of `AccountsListView.get_queryset`: filter the `Account`
table by `user=self.request.user`. -/
def AccountsListView.get_queryset (request_user : Nat) (accounts : List Account) :
    List Account :=
  accounts.filter (fun a => a.user == request_user)

/-- Embedding of `TransactionListView.get_queryset`: filter the
`Transaction` table by `user=self.request.user`. -/
def TransactionListView.get_queryset (request_user : Nat)
    (transactions : List Transaction) : List Transaction :=
  transactions.filter (fun t => t.user == request_user)

/-- True exactly when the event is a job submission. -/
def Event.isSubmit : Event → Bool
  | .submit _ _ _ => true
  | _ => false

/-- True exactly when the event is the `PlaidItem.save()` call. -/
def Event.isSave : Event → Bool
  | .saveItem _ => true
  | _ => false

/-- True exactly when the event is the provider exchange call. -/
def Event.isExchangeCall : Event → Bool
  | .providerExchange _ => true
  | _ => false

/-- Job submissions of a trace, in order. -/
def submissions (tr : List Event) : List Event :=
  tr.filter Event.isSubmit

/-- Scanning left to right: no job submission occurs strictly before the
first `saveItem` event (vacuously true when there is no submission). -/
def noSubmitBeforeSave : List Event → Bool
  | [] => true
  | ev :: tl =>
    match ev with
    | .saveItem _ => true
    | .submit _ _ _ => false
    | _ => noSubmitBeforeSave tl

/-- Sample request with a valid public token. -/
def sampleReq : Request :=
  { user_id := 7, form_valid := true,
    public_token := "public-sandbox-tok", form_errors := [] }

/-- Sample successful exchange answer from the provider. -/
def sampleOk : ExchangeSuccess :=
  { access_token := "access-sandbox-abc", item_id := "item-xyz", request_id := "rq-1" }

/-- Sample typed provider error. -/
def sampleErr : ProviderFailure :=
  { etype := "INVALID_INPUT", code := "INVALID_PUBLIC_TOKEN", request_id := "rq-2" }

/-- Environment where the exchange succeeds and all three dispatches succeed. -/
def envOk : Env :=
  { exchange := .ok sampleOk, d1 := .ok, d2 := .ok, d3 := .ok, next_identifier := 5 }

/-- Environment where the exchange fails with `sampleErr`. -/
def envErr : Env :=
  { exchange := .err sampleErr, d1 := .ok, d2 := .ok, d3 := .ok, next_identifier := 5 }

/-- Environment where the exchange succeeds and the first dispatch raises
an `OperationalError`. -/
def envOp1 : Env :=
  { exchange := .ok sampleOk, d1 := .operationalError, d2 := .ok, d3 := .ok,
    next_identifier := 5 }

/-- Environment where the exchange succeeds and the first dispatch raises
an exception that is not an `OperationalError`. -/
def envOther1 : Env :=
  { exchange := .ok sampleOk, d1 := .otherError, d2 := .ok, d3 := .ok,
    next_identifier := 5 }

/-- Environment where the exchange succeeds, the first dispatch succeeds and
the second dispatch raises an exception that is not an `OperationalError`. -/
def envOther2 : Env :=
  { exchange := .ok sampleOk, d1 := .ok, d2 := .otherError, d3 := .ok,
    next_identifier := 5 }

/-- C2: for a request with a valid form whose provider exchange fails with a
typed error carrying code X, the PlaidItem table is unchanged and the
response is 400 with body consisting of the message field set to X. -/
theorem provider_error_no_item_and_400 (req : Request) (env : Env)
    (db : List PlaidItem) (e : ProviderFailure)
    (hv : req.form_valid = true) (hx : env.exchange = ExchangeResult.err e) :
    (post req env db).items = db ∧
    (post req env db).result =
      Except.ok { status := 400, body := [("message", JVal.str e.code)] } := by
  simp [post, hv, hx]

/-- Witness for C2 at the sample request and failing environment. -/
theorem provider_error_no_item_and_400_witness :
    (post sampleReq envErr []).items = [] ∧
    (post sampleReq envErr []).result =
      Except.ok { status := 400, body := [("message", JVal.str sampleErr.code)] } :=
  provider_error_no_item_and_400 sampleReq envErr [] sampleErr rfl rfl

/-- C3: for a request whose public token fails form validation, the
PlaidItem table is unchanged, the trace holds no job submission and no
provider call, and the response is 400 with a body that carries the form
errors under the errors field. -/
theorem invalid_form_no_side_effects_and_400 (req : Request) (env : Env)
    (db : List PlaidItem) (hv : req.form_valid = false) :
    (post req env db).items = db ∧
    (∀ ev ∈ (post req env db).trace,
      ev.isSubmit = false ∧ ev.isExchangeCall = false) ∧
    (post req env db).result =
      Except.ok { status := 400,
                  body := [("message", JVal.str "Validation failed."),
                           ("errors", JVal.errs req.form_errors)] } := by
  simp [post, hv, Event.isSubmit, Event.isExchangeCall]

/-- Witness for C3 at a concrete invalid request. -/
theorem invalid_form_no_side_effects_and_400_witness :
    (post { user_id := 7, form_valid := false, public_token := "",
            form_errors := [("public_token", "This field is required.")] }
          envOk []).items = [] ∧
    (∀ ev ∈ (post { user_id := 7, form_valid := false, public_token := "",
                    form_errors := [("public_token", "This field is required.")] }
                  envOk []).trace,
      ev.isSubmit = false ∧ ev.isExchangeCall = false) ∧
    (post { user_id := 7, form_valid := false, public_token := "",
            form_errors := [("public_token", "This field is required.")] }
          envOk []).result =
      Except.ok { status := 400,
                  body := [("message", JVal.str "Validation failed."),
                           ("errors", JVal.errs
                             [("public_token", "This field is required.")])] } :=
  invalid_form_no_side_effects_and_400
    { user_id := 7, form_valid := false, public_token := "",
      form_errors := [("public_token", "This field is required.")] }
    envOk [] rfl

/-- Counterexample to C1 as stated: at this concrete request the form is
valid and the exchange succeeds, yet the response is not the 201 success
response, because the first `apply_async` raises an exception that is not
an `OperationalError` and the `except` clause does not catch it. -/
theorem nonOperational_dispatch_error_breaks_201 :
    sampleReq.form_valid = true ∧
    envOther1.exchange = ExchangeResult.ok sampleOk ∧
    (post sampleReq envOther1 []).result = Except.error () ∧
    (post sampleReq envOther1 []).result ≠
      Except.ok { status := 201,
                  body := [("message", JVal.str "Account added successfully."),
                           ("success", JVal.bool true)] } := by
  refine ⟨rfl, rfl, rfl, ?_⟩
  intro h
  rw [show (post sampleReq envOther1 []).result = Except.error () from rfl] at h
  exact Except.noConfusion h

/-- C1 amended: for every request with a valid public token whose provider
exchange succeeds, exactly one PlaidItem is appended to the table, with the
returned access_token and item_id and the requesting user - whatever the
dispatch block does; and provided no `apply_async` call raises an exception
other than `OperationalError`, the response is 201 with body message and
success true. -/
theorem successful_exchange_creates_item_and_responds_201
    (req : Request) (env : Env) (db : List PlaidItem) (r : ExchangeSuccess)
    (hv : req.form_valid = true) (hx : env.exchange = ExchangeResult.ok r) :
    (post req env db).items =
      db ++ [{ access_token := r.access_token, item_id := r.item_id,
               user := req.user_id, identifier := env.next_identifier }] ∧
    (env.d1 ≠ DispatchOutcome.otherError →
     env.d2 ≠ DispatchOutcome.otherError →
     env.d3 ≠ DispatchOutcome.otherError →
      (post req env db).result =
        Except.ok { status := 201,
                    body := [("message", JVal.str "Account added successfully."),
                             ("success", JVal.bool true)] }) := by
  constructor
  · cases hd1 : env.d1 <;> cases hd2 : env.d2 <;> cases hd3 : env.d3 <;>
      simp [post, hv, hx, runDispatch, hd1, hd2, hd3]
  · intro h1 h2 h3
    cases hd1 : env.d1 <;> cases hd2 : env.d2 <;> cases hd3 : env.d3 <;>
      first
      | exact absurd hd1 h1
      | exact absurd hd2 h2
      | exact absurd hd3 h3
      | simp [post, hv, hx, runDispatch, hd1, hd2, hd3]

/-- Witness for the amended C1 at the sample request with every call
succeeding. -/
theorem successful_exchange_creates_item_and_responds_201_witness :
    (post sampleReq envOk []).items =
      [] ++ [{ access_token := sampleOk.access_token, item_id := sampleOk.item_id,
               user := sampleReq.user_id, identifier := envOk.next_identifier }] ∧
    (envOk.d1 ≠ DispatchOutcome.otherError →
     envOk.d2 ≠ DispatchOutcome.otherError →
     envOk.d3 ≠ DispatchOutcome.otherError →
      (post sampleReq envOk []).result =
        Except.ok { status := 201,
                    body := [("message", JVal.str "Account added successfully."),
                             ("success", JVal.bool true)] }) :=
  successful_exchange_creates_item_and_responds_201 sampleReq envOk [] sampleOk
    rfl rfl

/-- C4: for every successful exchange in which no dispatch raises, the
submissions of the trace are exactly fetch_item_metadata, then
fetch_accounts_data, then fetch_transactions, each with positional
arguments user id and item identifier; the first two carry no countdown
and the third carries countdown 20. -/
theorem successful_exchange_three_submissions
    (req : Request) (env : Env) (db : List PlaidItem) (r : ExchangeSuccess)
    (hv : req.form_valid = true) (hx : env.exchange = ExchangeResult.ok r)
    (h1 : env.d1 = DispatchOutcome.ok) (h2 : env.d2 = DispatchOutcome.ok)
    (h3 : env.d3 = DispatchOutcome.ok) :
    submissions (post req env db).trace =
      [Event.submit JobName.fetch_item_metadata
         [req.user_id, env.next_identifier] none,
       Event.submit JobName.fetch_accounts_data
         [req.user_id, env.next_identifier] none,
       Event.submit JobName.fetch_transactions
         [req.user_id, env.next_identifier] (some 20)] := by
  simp [post, hv, hx, h1, h2, h3, runDispatch, submissions, Event.isSubmit]

/-- Witness for C4 at the sample request with every call succeeding. -/
theorem successful_exchange_three_submissions_witness :
    submissions (post sampleReq envOk []).trace =
      [Event.submit JobName.fetch_item_metadata
         [sampleReq.user_id, envOk.next_identifier] none,
       Event.submit JobName.fetch_accounts_data
         [sampleReq.user_id, envOk.next_identifier] none,
       Event.submit JobName.fetch_transactions
         [sampleReq.user_id, envOk.next_identifier] (some 20)] :=
  successful_exchange_three_submissions sampleReq envOk [] sampleOk
    rfl rfl rfl rfl rfl

/-- C5: for every successful exchange in which one of the `apply_async`
calls that actually executes raises an `OperationalError`, the request
still answers 201 with success true and the PlaidItem row appended by the
save stays in the table. -/
theorem operational_dispatch_error_still_201
    (req : Request) (env : Env) (db : List PlaidItem) (r : ExchangeSuccess)
    (hv : req.form_valid = true) (hx : env.exchange = ExchangeResult.ok r)
    (hop : env.d1 = DispatchOutcome.operationalError ∨
           (env.d1 = DispatchOutcome.ok ∧
            env.d2 = DispatchOutcome.operationalError) ∨
           (env.d1 = DispatchOutcome.ok ∧ env.d2 = DispatchOutcome.ok ∧
            env.d3 = DispatchOutcome.operationalError)) :
    (post req env db).items =
      db ++ [{ access_token := r.access_token, item_id := r.item_id,
               user := req.user_id, identifier := env.next_identifier }] ∧
    (post req env db).result =
      Except.ok { status := 201,
                  body := [("message", JVal.str "Account added successfully."),
                           ("success", JVal.bool true)] } := by
  rcases hop with h1 | ⟨h1, h2⟩ | ⟨h1, h2, h3⟩
  · simp [post, hv, hx, runDispatch, h1]
  · simp [post, hv, hx, runDispatch, h1, h2]
  · simp [post, hv, hx, runDispatch, h1, h2, h3]

/-- Witness for C5 at the sample request where the first dispatch raises an
`OperationalError`. -/
theorem operational_dispatch_error_still_201_witness :
    (post sampleReq envOp1 []).items =
      [] ++ [{ access_token := sampleOk.access_token, item_id := sampleOk.item_id,
               user := sampleReq.user_id, identifier := envOp1.next_identifier }] ∧
    (post sampleReq envOp1 []).result =
      Except.ok { status := 201,
                  body := [("message", JVal.str "Account added successfully."),
                           ("success", JVal.bool true)] } :=
  operational_dispatch_error_still_201 sampleReq envOp1 [] sampleOk
    rfl rfl (Or.inl rfl)

/-- C10: for every successful exchange in which the first dispatch raises
an `OperationalError`, no job at all is submitted (in particular neither
fetch_accounts_data nor fetch_transactions, and strictly fewer than three
submissions occur), yet the PlaidItem stays in the table and the response
is 201 with success true. -/
theorem first_dispatch_operational_error_stops_chain
    (req : Request) (env : Env) (db : List PlaidItem) (r : ExchangeSuccess)
    (hv : req.form_valid = true) (hx : env.exchange = ExchangeResult.ok r)
    (h1 : env.d1 = DispatchOutcome.operationalError) :
    submissions (post req env db).trace = [] ∧
    (submissions (post req env db).trace).length < 3 ∧
    (post req env db).items =
      db ++ [{ access_token := r.access_token, item_id := r.item_id,
               user := req.user_id, identifier := env.next_identifier }] ∧
    (post req env db).result =
      Except.ok { status := 201,
                  body := [("message", JVal.str "Account added successfully."),
                           ("success", JVal.bool true)] } := by
  simp [post, hv, hx, runDispatch, h1, submissions, Event.isSubmit]

/-- Witness for C10 at the sample request where the first dispatch raises
an `OperationalError`. -/
theorem first_dispatch_operational_error_stops_chain_witness :
    submissions (post sampleReq envOp1 []).trace = [] ∧
    (submissions (post sampleReq envOp1 []).trace).length < 3 ∧
    (post sampleReq envOp1 []).items =
      [] ++ [{ access_token := sampleOk.access_token, item_id := sampleOk.item_id,
               user := sampleReq.user_id, identifier := envOp1.next_identifier }] ∧
    (post sampleReq envOp1 []).result =
      Except.ok { status := 201,
                  body := [("message", JVal.str "Account added successfully."),
                           ("success", JVal.bool true)] } :=
  first_dispatch_operational_error_stops_chain sampleReq envOp1 [] sampleOk
    rfl rfl rfl

/-- Counterexample to C6 as stated: at this concrete request the item has
been persisted, the second `apply_async` raises an exception that is not an
`OperationalError`, and the caller does not receive the 201 success
response - the exception escapes the handler. Not every kind of dispatch
failure is swallowed. -/
theorem other_dispatch_error_propagates :
    (post sampleReq envOther2 []).items =
      [{ access_token := sampleOk.access_token, item_id := sampleOk.item_id,
         user := sampleReq.user_id, identifier := envOther2.next_identifier }] ∧
    (post sampleReq envOther2 []).result = Except.error () ∧
    (post sampleReq envOther2 []).result ≠
      Except.ok { status := 201,
                  body := [("message", JVal.str "Account added successfully."),
                           ("success", JVal.bool true)] } := by
  refine ⟨rfl, rfl, ?_⟩
  intro h
  rw [show (post sampleReq envOther2 []).result = Except.error () from rfl] at h
  exact Except.noConfusion h

/-- C6 amended: once the PlaidItem is persisted (valid form, successful
exchange), the row stays in the table whatever the dispatch block does; the
handler fails to produce a response exactly when the dispatch block ends
with an uncaught exception, that is one that is not an `OperationalError`;
and whenever the dispatch block does not end that way, the caller receives
the 201 success response. -/
theorem dispatch_failure_after_persist
    (req : Request) (env : Env) (db : List PlaidItem) (r : ExchangeSuccess)
    (hv : req.form_valid = true) (hx : env.exchange = ExchangeResult.ok r) :
    (post req env db).items =
      db ++ [{ access_token := r.access_token, item_id := r.item_id,
               user := req.user_id, identifier := env.next_identifier }] ∧
    ((post req env db).result = Except.error () ↔
      (runDispatch req.user_id env.next_identifier env.d1 env.d2 env.d3).2 =
        TryResult.unhandled) ∧
    ((runDispatch req.user_id env.next_identifier env.d1 env.d2 env.d3).2 ≠
        TryResult.unhandled →
      (post req env db).result =
        Except.ok { status := 201,
                    body := [("message", JVal.str "Account added successfully."),
                             ("success", JVal.bool true)] }) := by
  cases hd1 : env.d1 <;> cases hd2 : env.d2 <;> cases hd3 : env.d3 <;>
    simp [post, hv, hx, runDispatch, hd1, hd2, hd3]

/-- Witness for the amended C6 at the sample request where the second
dispatch raises a non-operational exception. -/
theorem dispatch_failure_after_persist_witness :
    (post sampleReq envOther2 []).items =
      [] ++ [{ access_token := sampleOk.access_token, item_id := sampleOk.item_id,
               user := sampleReq.user_id, identifier := envOther2.next_identifier }] ∧
    ((post sampleReq envOther2 []).result = Except.error () ↔
      (runDispatch sampleReq.user_id envOther2.next_identifier
        envOther2.d1 envOther2.d2 envOther2.d3).2 = TryResult.unhandled) ∧
    ((runDispatch sampleReq.user_id envOther2.next_identifier
        envOther2.d1 envOther2.d2 envOther2.d3).2 ≠ TryResult.unhandled →
      (post sampleReq envOther2 []).result =
        Except.ok { status := 201,
                    body := [("message", JVal.str "Account added successfully."),
                             ("success", JVal.bool true)] }) :=
  dispatch_failure_after_persist sampleReq envOther2 [] sampleOk rfl rfl

/-- Sample Account table holding rows of two distinct users. -/
def sampleAccounts : List Account :=
  [{ user := 1, payload := "acct-a" }, { user := 2, payload := "acct-b" }]

/-- Sample Transaction table holding rows of two distinct users. -/
def sampleTransactions : List Transaction :=
  [{ user := 1, payload := "tx-a" }, { user := 2, payload := "tx-b" }]

/-- C7: every row the accounts or transactions list endpoint returns is
owned by the requesting user; hence for two distinct users a and b, a
request by a never returns a row owned by b. -/
theorem list_endpoints_user_scoped (a b : Nat) (accounts : List Account)
    (transactions : List Transaction) (hab : a ≠ b) :
    (∀ row ∈ AccountsListView.get_queryset a accounts,
      row.user = a ∧ row.user ≠ b) ∧
    (∀ row ∈ TransactionListView.get_queryset a transactions,
      row.user = a ∧ row.user ≠ b) := by
  constructor
  · intro row hrow
    have h := List.mem_filter.mp hrow
    have hu : row.user = a := by simpa using h.2
    exact ⟨hu, fun hb => hab (hu.symm.trans hb)⟩
  · intro row hrow
    have h := List.mem_filter.mp hrow
    have hu : row.user = a := by simpa using h.2
    exact ⟨hu, fun hb => hab (hu.symm.trans hb)⟩

/-- Witness for C7: user 1 queries tables holding rows of users 1 and 2. -/
theorem list_endpoints_user_scoped_witness :
    (∀ row ∈ AccountsListView.get_queryset 1 sampleAccounts,
      row.user = 1 ∧ row.user ≠ 2) ∧
    (∀ row ∈ TransactionListView.get_queryset 1 sampleTransactions,
      row.user = 1 ∧ row.user ≠ 2) :=
  list_endpoints_user_scoped 1 2 sampleAccounts sampleTransactions (by decide)

/-- Counterexample to C8 as stated: at this concrete failing exchange the
structured log event emitted by the handler carries a public_token field
equal to the token the client supplied, so the failure log does contain a
client-supplied token. -/
theorem failure_log_contains_public_token :
    Event.logInfo "public token exchange fail"
        [("public_token", "public-sandbox-tok"),
         ("token_exchange", "fail"),
         ("error_type", sampleErr.etype),
         ("error_code", sampleErr.code),
         ("plaid_request_id", sampleErr.request_id)]
      ∈ (post sampleReq envErr []).trace ∧
    sampleReq.public_token = "public-sandbox-tok" := by
  constructor
  · exact List.mem_cons_of_mem _ (List.mem_singleton.mpr rfl)
  · rfl

/-- C8 amended: for every failing exchange, the trace is exactly the
provider call followed by one structured log event whose fields are the
client-supplied public token, the fail tag, and the provider-supplied
type, code and request id; in particular the log does contain the public
token the client sent (no access token exists on this path). -/
theorem failure_log_fields (req : Request) (env : Env) (db : List PlaidItem)
    (e : ProviderFailure)
    (hv : req.form_valid = true) (hx : env.exchange = ExchangeResult.err e) :
    (post req env db).trace =
      [Event.providerExchange req.public_token,
       Event.logInfo "public token exchange fail"
         [("public_token", req.public_token),
          ("token_exchange", "fail"),
          ("error_type", e.etype),
          ("error_code", e.code),
          ("plaid_request_id", e.request_id)]] := by
  simp [post, hv, hx]

/-- Witness for the amended C8 at the sample failing exchange. -/
theorem failure_log_fields_witness :
    (post sampleReq envErr []).trace =
      [Event.providerExchange sampleReq.public_token,
       Event.logInfo "public token exchange fail"
         [("public_token", sampleReq.public_token),
          ("token_exchange", "fail"),
          ("error_type", sampleErr.etype),
          ("error_code", sampleErr.code),
          ("plaid_request_id", sampleErr.request_id)]] :=
  failure_log_fields sampleReq envErr [] sampleErr rfl rfl

/-- Every trace `post` can produce passes the left-to-right scan: no job
submission occurs before the `saveItem` event. -/
theorem post_noSubmitBeforeSave (req : Request) (env : Env)
    (db : List PlaidItem) :
    noSubmitBeforeSave (post req env db).trace = true := by
  by_cases hv : req.form_valid
  · cases hx : env.exchange with
    | err e => simp [post, hv, hx, noSubmitBeforeSave]
    | ok r =>
      cases hd1 : env.d1 <;> cases hd2 : env.d2 <;> cases hd3 : env.d3 <;>
        simp [post, hv, hx, hd1, hd2, hd3, runDispatch, noSubmitBeforeSave]
  · simp [post, hv, noSubmitBeforeSave]

/-- Soundness of the scan: a trace that passes it has, before every
submission event, an earlier `saveItem` event. -/
theorem noSubmitBeforeSave_sound (tr : List Event)
    (hscan : noSubmitBeforeSave tr = true) (i : Nat) (hi : i < tr.length)
    (hsub : (tr.get ⟨i, hi⟩).isSubmit = true) :
    ∃ j, ∃ hj : j < tr.length, j < i ∧ (tr.get ⟨j, hj⟩).isSave = true := by
  induction tr generalizing i with
  | nil => exact absurd hi (by simp)
  | cons ev tl ih =>
    cases ev with
    | saveItem it =>
      cases i with
      | zero => exact absurd hsub (by simp [Event.isSubmit])
      | succ n =>
        exact ⟨0, by simp, Nat.succ_pos n, by simp [Event.isSave]⟩
    | submit j a c =>
      exact absurd hscan (by simp [noSubmitBeforeSave])
    | providerExchange t =>
      cases i with
      | zero => exact absurd hsub (by simp [Event.isSubmit])
      | succ n =>
        have hscan' : noSubmitBeforeSave tl = true := by
          simpa [noSubmitBeforeSave] using hscan
        have hn : n < tl.length := Nat.lt_of_succ_lt_succ (by simpa using hi)
        obtain ⟨j, hj, hji, hjs⟩ := ih hscan' n hn (by simpa using hsub)
        exact ⟨j + 1, by simpa using Nat.succ_lt_succ hj,
               Nat.succ_lt_succ hji, by simpa using hjs⟩
    | logInfo s f =>
      cases i with
      | zero => exact absurd hsub (by simp [Event.isSubmit])
      | succ n =>
        have hscan' : noSubmitBeforeSave tl = true := by
          simpa [noSubmitBeforeSave] using hscan
        have hn : n < tl.length := Nat.lt_of_succ_lt_succ (by simpa using hi)
        obtain ⟨j, hj, hji, hjs⟩ := ih hscan' n hn (by simpa using hsub)
        exact ⟨j + 1, by simpa using Nat.succ_lt_succ hj,
               Nat.succ_lt_succ hji, by simpa using hjs⟩
    | logException m =>
      cases i with
      | zero => exact absurd hsub (by simp [Event.isSubmit])
      | succ n =>
        have hscan' : noSubmitBeforeSave tl = true := by
          simpa [noSubmitBeforeSave] using hscan
        have hn : n < tl.length := Nat.lt_of_succ_lt_succ (by simpa using hi)
        obtain ⟨j, hj, hji, hjs⟩ := ih hscan' n hn (by simpa using hsub)
        exact ⟨j + 1, by simpa using Nat.succ_lt_succ hj,
               Nat.succ_lt_succ hji, by simpa using hjs⟩

/-- C9: in every trace `post` produces, any job submission is preceded by
an earlier `saveItem` event - the PlaidItem write completes before any
dispatch is attempted. -/
theorem save_precedes_dispatch (req : Request) (env : Env)
    (db : List PlaidItem) (i : Nat) (hi : i < (post req env db).trace.length)
    (hsub : ((post req env db).trace.get ⟨i, hi⟩).isSubmit = true) :
    ∃ j, ∃ hj : j < (post req env db).trace.length,
      j < i ∧ (((post req env db).trace.get ⟨j, hj⟩).isSave = true) :=
  noSubmitBeforeSave_sound (post req env db).trace
    (post_noSubmitBeforeSave req env db) i hi hsub

/-- Witness for C9: the fully successful sample trace submits its first job
at index 3 and a `saveItem` event sits earlier. -/
theorem save_precedes_dispatch_witness :
    ∃ j, ∃ hj : j < (post sampleReq envOk []).trace.length,
      j < 3 ∧ (((post sampleReq envOk []).trace.get ⟨j, hj⟩).isSave = true) :=
  save_precedes_dispatch sampleReq envOk [] 3 (by decide) (by decide)

end PlaidApp
